import Mathlib

set_option linter.unusedVariables false

/-!
Verification of the QoS configuration-translation engine of
vplane-config-qos against its specification.

The Python sources `vyatta_policy_qos_vci/interface.py` and
`vyatta_policy_qos_vci/qos_config.py` are embedded shallowly below:
JSON configuration dictionaries become the inductive type `Value`,
Python exceptions become `PyErr`, and every fallible operation returns
`Except PyErr _`.  The collaborator classes that the repository imports
but whose files are not part of the sources here (`Subport`, `Policy`,
`Profile`, `MarkMap`, `Action`, ingress maps) are modelled from the
specification and marked as such in their doc comments.
-/

namespace VplaneQos

/-- A JSON-like configuration value as handed to the VCI by configd.
Python dictionaries are modelled as association lists in key-insertion
order; JSON numbers occurring in this configuration are naturals. -/
inductive Value where
  | str (s : String)
  | num (n : Nat)
  | dict (entries : List (String × Value))
  | list (items : List Value)

/-- The Python exceptions that the translated code can raise. -/
inductive PyErr where
  | keyError (k : String)
  | attributeError
  | typeError
  | indexError
  | unboundLocal (v : String)
deriving DecidableEq, Repr

/-- Python `d[k]`: KeyError when a dict lacks the key, TypeError when
subscripting a non-dict value. -/
def Value.getItem : Value → String → Except PyErr Value
  | .dict entries, k =>
    match entries.lookup k with
    | some v => .ok v
    | none => .error (.keyError k)
  | _, _ => .error .typeError

/-- Python `d.get(k)` on an optional receiver: `None` (i.e. `none`) when
the key is missing, AttributeError when the receiver is `None` or not a
dict (`None.get` is exactly the failure mode of interface.py line 70). -/
def Value.pyGet : Option Value → String → Except PyErr (Option Value)
  | some (.dict entries), k => .ok (entries.lookup k)
  | _, _ => .error .attributeError

/-- Python `d[k]` where the receiver may be `None`: subscripting `None`
raises TypeError, which an `except KeyError` handler does not catch. -/
def Value.pySubscript : Option Value → String → Except PyErr Value
  | some v, k => v.getItem k
  | none, _ => .error .typeError

/-- Rendering of a value inside an f-string, as used for profile-index
keys and command text (`f"{vlan_id} {name}"`). -/
def renderTag : Value → String
  | .str s => s
  | .num n => toString n
  | .dict _ => "<dict>"
  | .list _ => "<list>"

/-- Rendering of a possibly-unresolved ifindex inside an f-string:
Python formats `None` as the text `None`. -/
def renderOptStr : Option String → String
  | some s => s
  | none => "None"

/-- Helper for `pySplit`: split a character list at every separator
occurrence (an empty input yields one empty segment, as Python's
`str.split` with an explicit separator does). -/
def pySplitChars (sep : Char) : List Char → List (List Char)
  | [] => [[]]
  | c :: cs =>
      let r := pySplitChars sep cs
      if c = sep then [] :: r
      else
        match r with
        | h :: t => (c :: h) :: t
        | [] => [[c]]

/-- Python `s.split(sep)` for a one-character separator, structural
over the string's characters. -/
def pySplit (sep : Char) (s : String) : List String :=
  (pySplitChars sep s.data).map (fun cs => ⟨cs⟩)

/-- Python dict insertion `m[k] = v`: overwriting keeps the original
position of the key, a new key is appended. -/
def pyInsert {α : Type} (m : List (String × α)) (k : String) (v : α) :
    List (String × α) :=
  if (m.lookup k).isSome then
    m.map (fun e => if e.1 = k then (k, v) else e)
  else
    m ++ [(k, v)]

/-- Modelled from the spec: `profile.py` is not under `src/`.  A Profile
carries a scope-relative numeric id and its declaration name (spec §3);
the id is handed in by the caller (`Profile(profile_id, profile_dict,
None)` in qos_config.py). -/
structure Profile where
  id : Nat
  name : String
deriving DecidableEq, Repr

/-- Modelled from the spec: `profile.py` is not under `src/`.  Profile
construction reads the declaration name from the list-key leaf `id` of
the profile's configuration dictionary (names are strings). -/
def Profile.fromDict (pid : Nat) (d : Value) : Except PyErr Profile := do
  let nameVal ← d.getItem "id"
  match nameVal with
  | .str s => .ok ⟨pid, s⟩
  | _ => .error .typeError

/-- Modelled from the spec: `mark_map.py` is not under `src/`.  A
MarkMap is a named remark table (spec §3); only its name matters here. -/
structure MarkMap where
  name : String

/-- Modelled from the spec: `mark_map.py` is not under `src/`.  The name
is the list-key leaf `id` of the mark-map dictionary. -/
def MarkMap.fromDict (d : Value) : Except PyErr MarkMap := do
  let nameVal ← d.getItem "id"
  match nameVal with
  | .str s => .ok ⟨s⟩
  | _ => .error .typeError

/-- Modelled from the spec: `action.py` is not under `src/`.  An
ActionGroup is a named bundle of rule actions (spec §3). -/
structure Action where
  name : String

/-- Modelled from the spec: `action.py` is not under `src/`.  The name
is the list-key leaf `id` of the action-group dictionary. -/
def Action.fromDict (d : Value) : Except PyErr Action := do
  let nameVal ← d.getItem "id"
  match nameVal with
  | .str s => .ok ⟨s⟩
  | _ => .error .typeError

/-- Modelled from the spec: `policy.py` is not under `src/`.  A Policy
is a named shaper definition with an ordered class list carrying
per-class profile references, its own local profile declarations, and a
frame overhead (spec §3, §4.1). -/
structure Policy where
  name : String
  classProfiles : List String
  localProfiles : List String
  overhead : Nat
deriving DecidableEq, Repr

/-- Modelled from the spec: `Policy.max_pipes(current_max)` returns
`max(current_max, number_of_classes_in_this_policy)` — the monotone
fold used by `Interface.commands` (spec §4.1). -/
def Policy.max_pipes (p : Policy) (cur : Nat) : Nat :=
  Nat.max cur p.classProfiles.length

/-- Modelled from the spec: `ingress_map.py` is not under `src/`.  The
Ingress-Map Registry maps names to ingress-map objects; only the
identity of an entry matters for interface construction. -/
structure IngressMap where
  name : String

/-- `Subport(interface, id, vlan_id, policy)` — modelled from the spec:
`subport.py` is not under `src/`.  A subport is the trunk (id 0) or one
VLAN of an interface, with a VLAN tag and a nullable attached Policy
(spec §3). -/
structure Subport where
  id : Nat
  vlanTag : Value
  policy : Option Policy

/-- Register a key in a profile index: the first profile added gets
index 0, the second index 1, and so on; re-registering an existing key
never reassigns its index (interface.py `profile_index_get` docstring,
spec §4.3). -/
def indexAdd (index : List (String × Nat)) (key : String) :
    List (String × Nat) :=
  match index.lookup key with
  | some _ => index
  | none => index ++ [(key, index.length)]

/-- Modelled from the spec: `subport.py` is not under `src/`.
`Subport.build_profile_index` (spec §4.3): for the subport's attached
policy, first register every global profile the policy's classes
reference (first occurrence only), then register the policy's local
profiles under the subport's VLAN-tag scope; keys are
`"global <name>"` and `"<vlan-tag> <name>"`. -/
def Subport.buildProfileIndex (sub : Subport) (index : List (String × Nat)) :
    List (String × Nat) :=
  match sub.policy with
  | none => index
  | some p =>
      let globalNames := p.classProfiles.filter
        (fun n => ¬ p.localProfiles.contains n)
      let afterGlobals := globalNames.foldl
        (fun acc n => indexAdd acc (s!"global {n}")) index
      p.localProfiles.foldl
        (fun acc n =>
          let t := renderTag sub.vlanTag
          indexAdd acc (s!"{t} {n}")) afterGlobals

/-- The profile-index key under which a class's profile reference is
resolved: local profiles live under the subport's VLAN-tag scope,
anything else is a global profile (spec §4.3). -/
def Subport.profileKey (sub : Subport) (p : Policy) (n : String) : String :=
  if p.localProfiles.contains n then
    let t := renderTag sub.vlanTag
    s!"{t} {n}"
  else
    s!"global {n}"

/-- Modelled from the spec: `subport.py` is not under `src/`.
`Subport.commands(interface)` (spec §4.4 step 2, §8 scenarios): a
subport with no attached policy emits nothing; otherwise it emits one
pipe command per traffic class, referencing the class's profile through
the interface's profile index. -/
def Subport.commands (sub : Subport) (pfx : String)
    (index : List (String × Nat)) : List String :=
  match sub.policy with
  | none => []
  | some p =>
      (p.classProfiles.enum).map (fun c =>
        let pipeId := c.1
        let pid := renderOptStr ((index.lookup (sub.profileKey p c.2)).map toString)
        let sid := sub.id
        s!"{pfx} pipe {sid} {pipeId} {pid}")

/-- One Interface object per physical port with QoS configured on it
(interface.py).  Fields mirror the attributes set by
`Interface.__init__`; back-references held by policies and ingress maps
are not needed by any property and are not modelled. -/
structure Interface where
  if_dict : Value
  name : Option Value
  subports : List Subport
  policies : List Policy
  ingressBindings : List (Value × String)
  profileIndex : List (String × Nat)
  ifindex : Option String

/-- The identifying key of an interface entry: `name` for vhost
interfaces, `tagnode` otherwise (interface.py lines 35-40). -/
def nameKeyOf (ifType : String) : String :=
  if ifType = "vhost" then "name" else "tagnode"

/-- The per-type policy attachment namespace (interface.py lines
37, 41). -/
def policyNamespaceOf (ifType : String) : String :=
  if ifType = "vhost" then "vyatta-interfaces-vhost-policy-v1"
  else "vyatta-interfaces-policy-v1"

/-- The per-type vif namespace prefix (interface.py lines 38, 42). -/
def vifNamespaceOf (ifType : String) : String :=
  if ifType = "vhost" then "vyatta-interfaces-vhost-vif-v1:" else ""

/-- `POLICY_KEY` of interface.py: the per-interface-type QoS namespace;
Python raises KeyError for any other interface type, rendered here as
`none` and raised by the caller. -/
def POLICY_KEY : String → Option String
  | "bonding" => some "vyatta-interfaces-bonding-qos-v1"
  | "dataplane" => some "vyatta-policy-qos-v1"
  | "vhost" => some "vyatta-interfaces-vhost-qos-v1"
  | _ => none

/-- Trunk policy-dictionary resolution, interface.py lines 49-63: try
the normal VM attachment point, then the hardware-switch attachment
point; `except KeyError: pass` leaves the variables at whatever the
last successful assignment produced.  Returns
`(if_policy_dict, port_params_dict)`. -/
def trunkPolicyResolve (ifDict : Value) (policyNamespace : String) :
    Except PyErr (Option Value × Option Value) :=
  match ifDict.getItem (policyNamespace ++ ":policy") with
  | .ok v => .ok (some v, none)
  | .error (.keyError _) =>
      match ifDict.getItem "vyatta-interfaces-dataplane-switch-v1:switch-group" with
      | .ok sg =>
          match sg.getItem "port-parameters" with
          | .ok pp =>
              match pp.getItem "vyatta-interfaces-switch-policy-v1:policy" with
              | .ok pol => .ok (some pol, some pp)
              | .error (.keyError _) => .ok (some sg, some pp)
              | .error e => .error e
          | .error (.keyError _) => .ok (some sg, none)
          | .error e => .error e
      | .error (.keyError _) => .ok (none, none)
      | .error e => .error e
  | .error e => .error e

/-- Python `qos_policy_dict[if_policy_name]`: look the policy name up in
the policy registry; a missing name raises KeyError carrying the name
(interface.py lines 73, 106, 137). -/
def registryLookup (reg : List (String × Policy)) : Value → Except PyErr Policy
  | .str s =>
      match reg.lookup s with
      | some p => .ok p
      | none => .error (.keyError s)
  | .num n => .error (.keyError (toString n))
  | _ => .error .typeError

/-- Python `ingress_map_dict[ingress_map_name]` (interface.py lines 84,
149). -/
def ingressLookup (reg : List (String × IngressMap)) : Value →
    Except PyErr IngressMap
  | .str s =>
      match reg.lookup s with
      | some m => .ok m
      | none => .error (.keyError s)
  | .num n => .error (.keyError (toString n))
  | _ => .error .typeError

/-- The trunk ingress-map block, interface.py lines 82-92: the single
`except KeyError` around both the configuration access and the registry
lookup swallows a KeyError from either one (comment in the source:
"Maybe there is no ingress map for this interface"). -/
def trunkIngress (ifPolicyDict : Option Value)
    (imReg : List (String × IngressMap)) :
    Except PyErr (List (Value × String)) :=
  match (do
      let nameVal ← Value.pySubscript ifPolicyDict "vyatta-policy-qos-v1:ingress-map"
      ingressLookup imReg nameVal : Except PyErr IngressMap) with
  | .ok im => .ok [(.num 0, im.name)]
  | .error (.keyError _) => .ok []
  | .error e => .error e

/-- The normal-VM vif loop, interface.py lines 97-116: one subport per
vif in order, ids starting at 1, the attached policy looked up in the
registry when a policy name is configured; `vif['tagnode']` and
`vif['<ns>:policy']` are plain subscripts whose KeyError propagates. -/
def processVifs (reg : List (String × Policy))
    (policyNamespace qosKey : String) :
    List Value → Nat → Except PyErr (List Subport × List Policy)
  | [], _ => .ok ([], [])
  | vif :: rest, sid => do
      let vlanId ← vif.getItem "tagnode"
      let pd ← vif.getItem (policyNamespace ++ ":policy")
      let nameOpt ← Value.pyGet (some pd) qosKey
      let policy ← match nameOpt with
        | none => pure (none : Option Policy)
        | some nv => do
            let p ← registryLookup reg nv
            pure (some p)
      let sub : Subport := ⟨sid, vlanId, policy⟩
      let (subs, pols) ← processVifs reg policyNamespace qosKey rest (sid + 1)
      .ok (sub :: subs, policy.toList ++ pols)

/-- The hardware-switch vlan-list extraction, interface.py lines
119-127: three nested subscripts under one `except KeyError: pass`. -/
def hwVlanList (portParams : Option Value) : Except PyErr (Option Value) :=
  match portParams with
  | none => .ok none
  | some pp =>
      match (do
          let vp ← pp.getItem "vlan-parameters"
          let qp ← vp.getItem "qos-parameters"
          qp.getItem "vlan" : Except PyErr Value) with
      | .ok vl => .ok (some vl)
      | .error (.keyError _) => .ok none
      | .error e => .error e

/-- The hardware-switch vlan loop, interface.py lines 129-157: a
subport is created (and the subport id advanced) only when the vlan
carries a policy; the per-vlan ingress-map block swallows KeyError like
the trunk one ("Maybe there's no ingress map for this vlan"). -/
def processHwVlans (reg : List (String × Policy))
    (imReg : List (String × IngressMap)) (qosKey : String) :
    List Value → Nat →
    Except PyErr (List Subport × List Policy × List (Value × String))
  | [], _ => .ok ([], [], [])
  | vlan :: rest, sid => do
      let vlanId ← vlan.getItem "vlan-id"
      let pd ← vlan.getItem "vyatta-interfaces-switch-policy-v1:policy"
      let nameOpt ← Value.pyGet (some pd) qosKey
      let policy ← match nameOpt with
        | none => pure (none : Option Policy)
        | some nv => do
            let p ← registryLookup reg nv
            pure (some p)
      let (subsHere, nextSid) := match policy with
        | some p => ([(⟨sid, vlanId, some p⟩ : Subport)], sid + 1)
        | none => ([], sid)
      let bindsHere ← (match (do
          let nv ← pd.getItem "vyatta-policy-qos-v1:ingress-map"
          ingressLookup imReg nv : Except PyErr IngressMap) with
        | .ok im => .ok [(vlanId, im.name)]
        | .error (.keyError _) => .ok []
        | .error e => .error e)
      let (subs, pols, binds) ← processHwVlans reg imReg qosKey rest nextSid
      .ok (subsHere ++ subs, policy.toList ++ pols, bindsHere ++ binds)

/-- The intermediate results of `Interface.__init__` before the object
is assembled. -/
structure CoreOut where
  nameVal : Option Value
  subports : List Subport
  policies : List Policy
  ingressBindings : List (Value × String)
  profileIndex : List (String × Nat)

/-- The body of `Interface.__init__` (interface.py lines 29-161),
staged in source order: name and namespaces from the interface type,
trunk policy-dict resolution, `POLICY_KEY[if_type]`, trunk policy
lookup and subport 0 (created only when the trunk has a policy), trunk
ingress-map block, normal-VM vif loop, hardware-switch vlan loop, and
finally `build_profile_index` over all subports. -/
def Interface.constructCore (ifType : String) (ifDict : Value)
    (reg : List (String × Policy)) (imReg : List (String × IngressMap)) :
    Except PyErr CoreOut := do
  let nameKey := nameKeyOf ifType
  let policyNamespace := policyNamespaceOf ifType
  let vifNamespace := vifNamespaceOf ifType
  let nameVal ← Value.pyGet (some ifDict) nameKey
  let resolved ← trunkPolicyResolve ifDict policyNamespace
  let ifPolicyDict := resolved.1
  let portParams := resolved.2
  let nsName ← match POLICY_KEY ifType with
    | some ns => pure ns
    | none => Except.error (.keyError ifType)
  let qosKey := nsName ++ ":qos"
  let ifPolicyNameOpt ← Value.pyGet ifPolicyDict qosKey
  let trunkPolicy ← match ifPolicyNameOpt with
    | none => pure (none : Option Policy)
    | some nv => do
        let p ← registryLookup reg nv
        pure (some p)
  let trunkSubports := match trunkPolicy with
    | some p => [(⟨0, .num 0, some p⟩ : Subport)]
    | none => []
  let trunkBinds ← trunkIngress ifPolicyDict imReg
  let vifOpt ← Value.pyGet (some ifDict) (vifNamespace ++ "vif")
  let vifResult ← match vifOpt with
    | none => pure (([], []) : List Subport × List Policy)
    | some (.list items) => processVifs reg policyNamespace qosKey items 1
    | some _ => Except.error .typeError
  let vlanListOpt ← hwVlanList portParams
  let hwResult ← match vlanListOpt with
    | none => pure (([], [], []) :
        List Subport × List Policy × List (Value × String))
    | some (.list items) => processHwVlans reg imReg qosKey items 1
    | some _ => Except.error .typeError
  let subports := trunkSubports ++ vifResult.1 ++ hwResult.1
  let profileIndex := subports.foldl
    (fun acc sub => Subport.buildProfileIndex sub acc) []
  .ok ⟨nameVal, subports,
       trunkPolicy.toList ++ vifResult.2 ++ hwResult.2.1,
       trunkBinds ++ hwResult.2.2, profileIndex⟩

/-- `Interface.__init__` with its four declared parameters: assemble
the Interface object from the staged core; `self._if_dict` is the raw
configuration subtree, `self._ifindex` starts unresolved. -/
def Interface.constructBody (ifType : String) (ifDict : Value)
    (reg : List (String × Policy)) (imReg : List (String × IngressMap)) :
    Except PyErr Interface :=
  (Interface.constructCore ifType ifDict reg imReg).map
    (fun w => ⟨ifDict, w.nameVal, w.subports, w.policies,
               w.ingressBindings, w.profileIndex, none⟩)

/-- One positional argument of a dynamic call of the `Interface`
constructor. -/
inductive CtorArg where
  | typeArg (s : String)
  | dictArg (v : Value)
  | policyReg (reg : List (String × Policy))
  | ingressReg (reg : List (String × IngressMap))

/-- A dynamic Python call of `Interface(...)`: the argument tuple is
matched against the four declared parameters of `Interface.__init__`
(`if_type`, `if_dict`, `qos_policy_dict`, `ingress_map_dict`); any call
that does not supply exactly these four raises TypeError. -/
def Interface.construct : List CtorArg → Except PyErr Interface
  | [.typeArg ifType, .dictArg ifDict, .policyReg reg, .ingressReg imReg] =>
      Interface.constructBody ifType ifDict reg imReg
  | _ => .error .typeError

/-- `Interface.__eq__` (interface.py lines 163-168) compares the
original JSON dictionaries of the two interfaces; Python `==` on these
dictionaries is structural equality, embedded as equality of `Value`. -/
def Interface.pyEq (a b : Interface) : Prop := a.if_dict = b.if_dict

/-- Python `raw.replace('\\n', '')` removes every newline character;
embedded as a structural filter over the string's characters. -/
def stripNewlines (s : String) : String :=
  ⟨s.data.filter (fun c => c ≠ '\n')⟩

/-- The `ifindex` property (interface.py lines 212-231): return the
cached value if present, otherwise read the sysfs attribute (modelled
by the `sysfs` oracle: `none` is an OSError), strip newlines, cache and
return it; on OSError the value stays unresolved and `None` is
returned. -/
def Interface.ifindexResolve (ifc : Interface) (sysfs : Option String) :
    Option String × Interface :=
  match ifc.ifindex with
  | some v => (some v, ifc)
  | none =>
      match sysfs with
      | some raw =>
          let v := stripNewlines raw
          (some v, { ifc with ifindex := some v })
      | none => (none, ifc)

/-- The subport loop of `Interface.commands` (interface.py lines
258-263): fold `max_pipes = subport.policy.max_pipes(max_pipes)` over
all subports, remembering the overhead of the policy of a subport with
id 0 (`overhead` stays unassigned — `none` — when no such subport
exists). -/
def mpStep (acc : Nat × Option Nat) (sub : Subport) : Nat × Option Nat :=
  match sub.policy with
  | none => acc
  | some p =>
      let mp := p.max_pipes acc.1
      if sub.id = 0 then (mp, some p.overhead) else (mp, acc.2)

/-- The fold of `mpStep` over all subports, started from
`max_pipes = 0` and `overhead` unassigned. -/
def maxPipesOverhead (subs : List Subport) : Nat × Option Nat :=
  subs.foldl mpStep (0, none)

/-- The `max_pipes` value computed by `Interface.commands`. -/
def Interface.maxPipes (ifc : Interface) : Nat :=
  (maxPipesOverhead ifc.subports).1

/-- The port-level header command of `Interface.commands`
(interface.py lines 266-268). -/
def portHeaderCmd (pfx : String) (nsub npipes nprof ov : Nat) : String :=
  s!"{pfx} port subports {nsub} pipes {npipes} profiles {nprof} overhead {ov}"

/-- The concatenation of all subport command subsequences
(interface.py lines 272-273, `cmd_list += subport.commands(self)`). -/
def Interface.subportCmds (ifc : Interface) (pfx : String) : List String :=
  ifc.subports.foldl
    (fun acc sub => acc ++ Subport.commands sub pfx ifc.profileIndex) []

/-- `Interface.commands` (interface.py lines 249-278): resolve the
ifindex for the command prefix, fold `max_pipes`/`overhead` over the
subports, emit the port header when `max_pipes` is nonzero (Python
raises UnboundLocalError there when no subport with id 0 carried a
policy), then every subport's commands, then the enable command when
`max_pipes` is nonzero. -/
def Interface.commands (ifc : Interface) (sysfs : Option String) :
    Except PyErr (List String) :=
  let res := ifc.ifindexResolve sysfs
  let v := renderOptStr res.1
  let pfx := s!"qos {v}"
  let maxSubports := ifc.subports.length
  let mo := maxPipesOverhead ifc.subports
  if mo.1 ≠ 0 then
    match mo.2 with
    | none => .error (.unboundLocal "overhead")
    | some ov =>
        .ok (portHeaderCmd pfx maxSubports mo.1 ifc.profileIndex.length ov
              :: ifc.subportCmds pfx ++ [s!"{pfx} enable"])
  else
    .ok (ifc.subportCmds pfx)

/-- The state of a fully-constructed `QosConfig` object
(qos_config.py): the name-keyed registries and the interface map
(keyed by `int_obj.name`, which Python allows to be any value or
`None`). -/
structure QosConfigState where
  actionGroups : List (String × Action)
  markMaps : List (String × MarkMap)
  globalProfiles : List (String × Profile)
  interfaces : List (Option Value × Interface)
  policies : List (String × Policy)

/-- `QosConfig._process_action` (qos_config.py lines 45-52): build the
action-group registry from the optional `name` list. -/
def processAction (actionDictOpt : Option Value) :
    Except PyErr (List (String × Action)) :=
  match actionDictOpt with
  | none => .ok []
  | some ad => do
      let listOpt ← Value.pyGet (some ad) "name"
      match listOpt with
      | none => .ok []
      | some (.list items) =>
          items.foldlM
            (fun acc d => do
              let a ← Action.fromDict d
              pure (pyInsert acc a.name a)) []
      | some _ => .error .typeError

/-- The mark-map section of `QosConfig._process_qos` (qos_config.py
lines 59-64). -/
def processMarkMaps (items : List Value) :
    Except PyErr (List (String × MarkMap)) :=
  items.foldlM
    (fun acc d => do
      let m ← MarkMap.fromDict d
      pure (pyInsert acc m.name m)) []

/-- The global-profile section of `QosConfig._process_qos`
(qos_config.py lines 66-73): `profile_id` starts at 0 and is
incremented after each `Profile(profile_id, profile_dict, None)`. -/
def processGlobalProfiles :
    List Value → Nat → List (String × Profile) →
    Except PyErr (List (String × Profile))
  | [], _, acc => .ok acc
  | d :: rest, pid, acc => do
      let p ← Profile.fromDict pid d
      processGlobalProfiles rest (pid + 1) (pyInsert acc p.name p)

/-- Modelled from the spec: `policy.py` is not under `src/`.  Policy
construction (`Policy(policy_dict, global_profiles, mark_maps)`, spec
§4.1) reads the policy name from the list key `id`, the ordered class
list and its per-class `profile` references and the local `profile`
declarations from the `shaper` subtree, and the frame overhead from
`frame-overhead` (0 when absent); every class profile reference is
resolved against the union of local and global profiles and an
unresolved name is a fatal configuration-reference error. -/
def Policy.fromDict (d : Value) (globals : List (String × Profile)) :
    Except PyErr Policy := do
  let nameVal ← d.getItem "id"
  let name ← match nameVal with
    | .str s => pure s
    | _ => Except.error .typeError
  let shaper ← d.getItem "shaper"
  let classListOpt ← Value.pyGet (some shaper) "class"
  let classProfiles ← match classListOpt with
    | none => pure ([] : List String)
    | some (.list cs) =>
        cs.foldlM
          (fun acc c => do
            let pOpt ← Value.pyGet (some c) "profile"
            match pOpt with
            | none => pure acc
            | some (.str s) => pure (acc ++ [s])
            | some _ => Except.error .typeError) []
    | some _ => Except.error .typeError
  let localListOpt ← Value.pyGet (some shaper) "profile"
  let localProfiles ← match localListOpt with
    | none => pure ([] : List String)
    | some (.list ps) =>
        ps.foldlM
          (fun acc pd => do
            let nv ← pd.getItem "id"
            match nv with
            | .str s => pure (acc ++ [s])
            | _ => Except.error .typeError) []
    | some _ => Except.error .typeError
  let ovOpt ← Value.pyGet (some shaper) "frame-overhead"
  let overhead ← match ovOpt with
    | none => pure 0
    | some (.num n) => pure n
    | some _ => Except.error .typeError
  let _ ← classProfiles.foldlM
    (fun _ n =>
      if localProfiles.contains n then pure ()
      else match globals.lookup n with
        | some _ => pure ()
        | none => Except.error (.keyError n)) ()
  .ok ⟨name, classProfiles, localProfiles, overhead⟩

/-- The policy section of `QosConfig._process_qos` (qos_config.py
lines 75-81). -/
def processPolicies (items : List Value)
    (globals : List (String × Profile)) :
    Except PyErr (List (String × Policy)) :=
  items.foldlM
    (fun acc d => do
      let p ← Policy.fromDict d globals
      pure (pyInsert acc p.name p)) []

/-- `QosConfig._process_qos` (qos_config.py lines 54-81): mark-maps,
then global profiles, then policies. -/
def processQos (qosDict : Value) :
    Except PyErr (List (String × MarkMap) × List (String × Profile) ×
                  List (String × Policy)) := do
  let mmOpt ← Value.pyGet (some qosDict) "mark-map"
  let markMaps ← match mmOpt with
    | none => pure ([] : List (String × MarkMap))
    | some (.list items) => processMarkMaps items
    | some _ => Except.error .typeError
  let gpOpt ← Value.pyGet (some qosDict) "profile"
  let globals ← match gpOpt with
    | none => pure ([] : List (String × Profile))
    | some (.list items) => processGlobalProfiles items 0 []
    | some _ => Except.error .typeError
  let polOpt ← Value.pyGet (some qosDict) "name"
  let policies ← match polOpt with
    | none => pure ([] : List (String × Policy))
    | some (.list items) => processPolicies items globals
    | some _ => Except.error .typeError
  .ok (markMaps, globals, policies)

/-- One interface entry of `QosConfig._process_interfaces`
(qos_config.py lines 88-90): `Interface(if_type, interface,
self._policies)` — the call passes three arguments where
`Interface.__init__` declares four. -/
def processOneInterface (ifType : String) (entry : Value)
    (policies : List (String × Policy)) : Except PyErr Interface :=
  Interface.construct
    [.typeArg ifType, .dictArg entry, .policyReg policies]

/-- The inner loop of `QosConfig._process_interfaces` over the entries
of one interface-type key. -/
def processInterfaceList (ifType : String) (policies : List (String × Policy)) :
    List Value → Except PyErr (List (Option Value × Interface))
  | [] => .ok []
  | entry :: rest => do
      let ifc ← processOneInterface ifType entry policies
      let tail ← processInterfaceList ifType policies rest
      .ok ((ifc.name, ifc) :: tail)

/-- The loop of `QosConfig._process_interfaces` over the key/value
pairs of the interfaces subtree: `if_type = key.split(':')[1]`
(IndexError when the key has no colon), then one `Interface(...)` call
per entry of that key's list. -/
def processInterfacesGo (policies : List (String × Policy)) :
    List (String × Value) → Except PyErr (List (Option Value × Interface))
  | [] => .ok []
  | (key, v) :: rest => do
      let ifType ← match (pySplit ':' key).get? 1 with
        | some t => pure t
        | none => Except.error .indexError
      let here ← match v with
        | .list items => processInterfaceList ifType policies items
        | _ => Except.error .typeError
      let tail ← processInterfacesGo policies rest
      .ok (here ++ tail)

/-- `QosConfig._process_interfaces` (qos_config.py lines 83-90). -/
def processInterfaces (policies : List (String × Policy)) :
    Option Value → Except PyErr (List (Option Value × Interface))
  | none => .ok []
  | some (.dict entries) => processInterfacesGo policies entries
  | some _ => .error .attributeError

/-- `QosConfig.__init__` (qos_config.py lines 24-43): an input with no
`vyatta-policy-v1:policy` subtree returns early with every registry
empty; otherwise actions, the qos subtree (a plain subscript whose
KeyError propagates), and finally the interfaces subtree are
processed. -/
def qosConfigBuild (configDict : Value) : Except PyErr QosConfigState := do
  let policyOpt ← Value.pyGet (some configDict) "vyatta-policy-v1:policy"
  match policyOpt with
  | none => .ok ⟨[], [], [], [], []⟩
  | some policyDict => do
      let actionOpt ← Value.pyGet (some policyDict) "vyatta-policy-action-v1:action"
      let actions ← processAction actionOpt
      let qosDict ← policyDict.getItem "vyatta-policy-qos-v1:qos"
      let qosOut ← processQos qosDict
      let ifOpt ← Value.pyGet (some configDict) "vyatta-interfaces-v1:interfaces"
      let ifaces ← processInterfaces qosOut.2.2 ifOpt
      .ok ⟨actions, qosOut.1, qosOut.2.1, ifaces, qosOut.2.2⟩

/-- The profile names declared by a global-profile list, in declaration
order (the name each `Profile.fromDict` would extract). -/
def extractProfileNames : List Value → Except PyErr (List String)
  | [] => .ok []
  | d :: rest => do
      let nameVal ← d.getItem "id"
      match nameVal with
      | .str s => do
          let tail ← extractProfileNames rest
          .ok (s :: tail)
      | _ => .error .typeError

/-- Wellformedness of one vif entry for the normal-VM loop: it carries
a `tagnode`, a policy attachment dictionary, and a `qos` leaf that is
either absent or a string policy name — the shape the input contract
(spec §6) guarantees for vif entries. -/
def vifWF (pns qosKey : String) (vif : Value) : Prop :=
  (∃ tag, vif.getItem "tagnode" = .ok tag) ∧
  (∃ pd, vif.getItem (pns ++ ":policy") = .ok pd ∧
     ∃ no, Value.pyGet (some pd) qosKey = .ok no ∧
       (no = none ∨ ∃ s, no = some (.str s)))

/-- The policy names the vif loop resolves, in loop order. -/
def vifQosNames (pns qosKey : String) (vifs : List Value) : List String :=
  vifs.filterMap (fun vif =>
    match vif.getItem (pns ++ ":policy") with
    | .ok pd =>
        match Value.pyGet (some pd) qosKey with
        | .ok (some (.str s)) => some s
        | _ => none
    | _ => none)

/-! Concrete configuration fragments used by counterexamples and
witnesses. -/

/-- A policy with one traffic class referencing its own local profile
`local-x` (the policy `P2` of spec §8's VLAN-only scenario). -/
def polP2 : Policy := ⟨"P2", ["local-x"], ["local-x"], 0⟩

/-- A policy with two classes both referencing the global profile
`prof-a` and a frame overhead of 24 (the policy `P1` of spec §8's
trunk scenario). -/
def polP1 : Policy := ⟨"P1", ["prof-a", "prof-a"], [], 24⟩

/-- An interface whose trunk carries no policy and whose single VLAN 10
carries policy `P2` (spec §8's VLAN-only scenario). -/
def c7dict : Value := .dict [
  ("tagnode", .str "dp0s1"),
  ("vyatta-interfaces-policy-v1:policy", .dict []),
  ("vif", .list [
    .dict [
      ("tagnode", .num 10),
      ("vyatta-interfaces-policy-v1:policy",
        .dict [("vyatta-policy-qos-v1:qos", .str "P2")])]])]

/-- The four-argument constructor call for the VLAN-only scenario. -/
def c7args : List CtorArg :=
  [.typeArg "dataplane", .dictArg c7dict, .policyReg [("P2", polP2)],
   .ingressReg []]

/-- An interface whose trunk carries policy `P1` and which has no
VLANs. -/
def s1dict : Value := .dict [
  ("tagnode", .str "dp0p1"),
  ("vyatta-interfaces-policy-v1:policy",
    .dict [("vyatta-policy-qos-v1:qos", .str "P1")])]

/-- The Interface object built from `s1dict` (trunk subport 0 carrying
`P1`, global profile `prof-a` at index 0, ifindex unresolved). -/
def s1ifc : Interface :=
  ⟨s1dict, some (.str "dp0p1"), [⟨0, .num 0, some polP1⟩], [polP1], [],
   [("global prof-a", 0)], none⟩

/-- An interface entry with no QoS policy attachment at all — neither
the standard nor the hardware-switch namespace is present. -/
def c4trunkArgs : List CtorArg :=
  [.typeArg "dataplane", .dictArg (.dict [("tagnode", .str "dp0s1")]),
   .policyReg [], .ingressReg []]

/-- An interface entry whose declared VLAN 10 has no policy attachment
sub-object. -/
def c4vifArgs : List CtorArg :=
  [.typeArg "dataplane",
   .dictArg (.dict [("tagnode", .str "dp0s2"),
     ("vyatta-interfaces-policy-v1:policy", .dict []),
     ("vif", .list [.dict [("tagnode", .num 10)]])]),
   .policyReg [], .ingressReg []]

/-- An interface entry that names the ingress map `missing-map`, with
an empty ingress-map registry. -/
def c5args : List CtorArg :=
  [.typeArg "dataplane",
   .dictArg (.dict [("tagnode", .str "dp0s1"),
     ("vyatta-interfaces-policy-v1:policy",
       .dict [("vyatta-policy-qos-v1:ingress-map", .str "missing-map")])]),
   .policyReg [], .ingressReg []]

/-- A configuration snapshot whose interfaces subtree has one dataplane
interface entry but which has no `vyatta-policy-v1:policy` subtree. -/
def c3cfg : Value := .dict [
  ("vyatta-interfaces-v1:interfaces", .dict [
    ("vyatta-interfaces-dataplane-v1:dataplane",
      .list [.dict [("tagnode", .str "dp0s1")]])])]

/-- An interface entry that names the undefined policy `P9` on its
trunk. -/
def c6dict : Value := .dict [
  ("tagnode", .str "dp0s1"),
  ("vyatta-interfaces-policy-v1:policy",
    .dict [("vyatta-policy-qos-v1:qos", .str "P9")])]

/-- The VLAN 10 entry that names the undefined policy `P9`. -/
def c6vifEntry : Value := .dict [
  ("tagnode", .num 10),
  ("vyatta-interfaces-policy-v1:policy",
    .dict [("vyatta-policy-qos-v1:qos", .str "P9")])]

/-- An interface entry whose VLAN 10 names the undefined policy
`P9`. -/
def c6vifDict : Value := .dict [
  ("tagnode", .str "dp0s3"),
  ("vyatta-interfaces-policy-v1:policy", .dict []),
  ("vif", .list [c6vifEntry])]

/-- An interface entry whose trunk names the registered policy `P1`
while its VLAN 10 names the undefined policy `P9`. -/
def c6mixedDict : Value := .dict [
  ("tagnode", .str "dp0s4"),
  ("vyatta-interfaces-policy-v1:policy",
    .dict [("vyatta-policy-qos-v1:qos", .str "P1")]),
  ("vif", .list [c6vifEntry])]

/-- An interface entry with a policy attachment dictionary carrying no
qos leaf, used for the equality witness. -/
def c10dict : Value := .dict [
  ("tagnode", .str "dp0s9"),
  ("vyatta-interfaces-policy-v1:policy", .dict [])]

/-- The Interface object built from `c10dict`. -/
def c10ifc : Interface :=
  ⟨c10dict, some (.str "dp0s9"), [], [], [], [], none⟩

/-! Helper lemmas shared by the claim theorems. -/

theorem mpStep_fst_zero {acc : Nat × Option Nat} {sub : Subport}
    (h : (mpStep acc sub).1 = 0) :
    acc.1 = 0 ∧ ∀ p, sub.policy = some p → p.classProfiles.length = 0 := by
  cases hp : sub.policy with
  | none =>
      simp only [mpStep, hp] at h
      refine ⟨h, ?_⟩
      intro p hpe
      exact Option.noConfusion hpe
  | some p =>
      simp only [mpStep, hp, Policy.max_pipes] at h
      have hmax : Nat.max acc.1 p.classProfiles.length = 0 := by
        split at h
        · exact h
        · exact h
      have hz := Nat.max_eq_zero_iff.mp hmax
      refine ⟨hz.1, ?_⟩
      intro q hq
      cases hq
      exact hz.2

theorem foldl_mpStep_zero :
    ∀ (subs : List Subport) (acc : Nat × Option Nat),
      (subs.foldl mpStep acc).1 = 0 →
      acc.1 = 0 ∧
        ∀ sub ∈ subs, ∀ p, sub.policy = some p →
          p.classProfiles.length = 0 := by
  intro subs
  induction subs with
  | nil => intro acc h; exact ⟨h, fun sub hs => absurd hs (List.not_mem_nil sub)⟩
  | cons sub rest ih =>
      intro acc h
      rw [List.foldl_cons] at h
      obtain ⟨hstep, hrest⟩ := ih (mpStep acc sub) h
      obtain ⟨hacc, hhead⟩ := mpStep_fst_zero hstep
      refine ⟨hacc, ?_⟩
      intro x hx
      rcases List.mem_cons.mp hx with hx | hx
      · subst hx; exact hhead
      · exact hrest x hx

theorem Subport.commands_eq_nil {sub : Subport} (pfx : String)
    (index : List (String × Nat))
    (h : ∀ p, sub.policy = some p → p.classProfiles.length = 0) :
    Subport.commands sub pfx index = [] := by
  unfold Subport.commands
  cases hp : sub.policy with
  | none => rfl
  | some p =>
      have hlen := h p hp
      have : p.classProfiles = [] := List.length_eq_zero.mp hlen
      simp [this]

theorem subportCmds_eq_nil {ifc : Interface} (pfx : String)
    (h : ∀ sub ∈ ifc.subports, ∀ p, sub.policy = some p →
      p.classProfiles.length = 0) :
    ifc.subportCmds pfx = [] := by
  unfold Interface.subportCmds
  have : ∀ (l : List Subport) (acc : List String),
      (∀ sub ∈ l, ∀ p, sub.policy = some p → p.classProfiles.length = 0) →
      l.foldl (fun a sub => a ++ Subport.commands sub pfx ifc.profileIndex) acc
        = acc := by
    intro l
    induction l with
    | nil => intro acc _; rfl
    | cons sub rest ih =>
        intro acc hl
        rw [List.foldl_cons,
            Subport.commands_eq_nil pfx ifc.profileIndex
              (hl sub (List.mem_cons_self sub rest)), List.append_nil]
        exact ih acc (fun x hx => hl x (List.mem_cons_of_mem sub hx))
  exact this ifc.subports [] h

theorem processInterfaceList_cons (ifType : String)
    (policies : List (String × Policy)) (e : Value) (rest : List Value) :
    processInterfaceList ifType policies (e :: rest) = .error .typeError := rfl

theorem processInterfaceList_ok {ifType : String}
    {policies : List (String × Policy)} {items : List Value}
    {l : List (Option Value × Interface)}
    (h : processInterfaceList ifType policies items = .ok l) : l = [] := by
  cases items with
  | nil =>
      simp only [processInterfaceList] at h
      cases h
      rfl
  | cons e rest =>
      rw [processInterfaceList_cons] at h
      exact Except.noConfusion h

theorem processInterfacesGo_ok :
    ∀ {policies : List (String × Policy)}
      {entries : List (String × Value)}
      {l : List (Option Value × Interface)},
      processInterfacesGo policies entries = .ok l → l = [] := by
  intro policies entries
  induction entries with
  | nil =>
      intro l h
      simp only [processInterfacesGo] at h
      cases h
      rfl
  | cons kv rest ih =>
      intro l h
      obtain ⟨key, v⟩ := kv
      simp only [processInterfacesGo, Bind.bind, Except.bind] at h
      cases hsplit : (pySplit ':' key).get? 1 with
      | none => rw [hsplit] at h; exact Except.noConfusion h
      | some t =>
          rw [hsplit] at h
          simp only [pure, Except.pure] at h
          cases v with
          | list items =>
              simp only [] at h
              cases hlist : processInterfaceList t policies items with
              | error e => rw [hlist] at h; exact Except.noConfusion h
              | ok here =>
                  rw [hlist] at h
                  cases htail : processInterfacesGo policies rest with
                  | error e => rw [htail] at h; exact Except.noConfusion h
                  | ok tail =>
                      rw [htail] at h
                      cases h
                      rw [processInterfaceList_ok hlist, ih htail]
                      rfl
          | str s => exact Except.noConfusion h
          | num n => exact Except.noConfusion h
          | dict d => exact Except.noConfusion h

theorem processInterfaces_ok {policies : List (String × Policy)}
    {o : Option Value} {l : List (Option Value × Interface)}
    (h : processInterfaces policies o = .ok l) : l = [] := by
  cases o with
  | none =>
      simp only [processInterfaces] at h
      cases h
      rfl
  | some v =>
      cases v with
      | dict entries => exact processInterfacesGo_ok h
      | str s => exact Except.noConfusion h
      | num n => exact Except.noConfusion h
      | list items => exact Except.noConfusion h

theorem constructBody_if_dict {ifType : String} {ifDict : Value}
    {reg : List (String × Policy)} {imReg : List (String × IngressMap)}
    {st : Interface}
    (h : Interface.constructBody ifType ifDict reg imReg = .ok st) :
    st.if_dict = ifDict := by
  unfold Interface.constructBody at h
  cases hc : Interface.constructCore ifType ifDict reg imReg with
  | error e => rw [hc] at h; exact Except.noConfusion h
  | ok w =>
      rw [hc] at h
      simp only [Except.map] at h
      cases h
      rfl

theorem processInterfacesGo_blocked :
    ∀ (policies : List (String × Policy)) (entries : List (String × Value)),
      (∀ kv ∈ entries, (pySplit ':' kv.1).get? 1 ≠ none ∧
        ∃ items, kv.2 = Value.list items) →
      (∃ kv ∈ entries, ∃ items, kv.2 = Value.list items ∧ items ≠ []) →
      processInterfacesGo policies entries = .error .typeError := by
  intro policies entries
  induction entries with
  | nil =>
      intro _ hex
      rcases hex with ⟨kv, hmem, _⟩
      exact absurd hmem (List.not_mem_nil kv)
  | cons kv rest ih =>
      intro hWF hex
      obtain ⟨key, v⟩ := kv
      obtain ⟨hkey, items, hv⟩ := hWF (key, v) (List.mem_cons_self _ _)
      subst hv
      cases hkt : (pySplit ':' key).get? 1 with
      | none => exact absurd hkt hkey
      | some t =>
          simp only [processInterfacesGo, hkt, Bind.bind, Except.bind, pure,
            Except.pure]
          cases items with
          | cons e tl => rw [processInterfaceList_cons]
          | nil =>
              simp only [processInterfaceList]
              have hrest : ∃ kv ∈ rest, ∃ items, kv.2 = Value.list items ∧
                  items ≠ [] := by
                rcases hex with ⟨kv2, hmem2, items2, hv2, hne2⟩
                rcases List.mem_cons.mp hmem2 with heq | hmem2
                · exfalso
                  rw [heq] at hv2
                  simp only at hv2
                  cases hv2
                  exact hne2 rfl
                · exact ⟨kv2, hmem2, items2, hv2, hne2⟩
              rw [ih (fun x hx => hWF x (List.mem_cons_of_mem _ hx)) hrest]

theorem processVifs_missing :
    ∀ (reg : List (String × Policy)) (pns qosKey : String)
      (vifs : List Value),
      (∀ vif ∈ vifs, vifWF pns qosKey vif) →
      (∃ n ∈ vifQosNames pns qosKey vifs, reg.lookup n = none) →
      ∃ n ∈ vifQosNames pns qosKey vifs, reg.lookup n = none ∧
        ∀ sid, processVifs reg pns qosKey vifs sid =
          .error (.keyError n) := by
  intro reg pns qosKey vifs
  induction vifs with
  | nil =>
      intro _ hex
      rcases hex with ⟨n, hn, _⟩
      simp [vifQosNames] at hn
  | cons vif rest ih =>
      intro hWF hex
      obtain ⟨⟨tag, htag⟩, pd, hpd, no, hno, hshape⟩ :=
        hWF vif (List.mem_cons_self vif rest)
      rcases hshape with hnone | ⟨s, hs⟩
      · rw [hnone] at hno
        have hnames : vifQosNames pns qosKey (vif :: rest) =
            vifQosNames pns qosKey rest := by
          simp [vifQosNames, List.filterMap_cons, hpd, hno]
        rw [hnames] at hex
        obtain ⟨n, hn, hlook, herr⟩ :=
          ih (fun x hx => hWF x (List.mem_cons_of_mem vif hx)) hex
        refine ⟨n, ?_, hlook, ?_⟩
        · rw [hnames]; exact hn
        · intro sid
          simp only [processVifs, Bind.bind, Except.bind, htag, hpd, hno,
            pure, Except.pure]
          rw [herr (sid + 1)]
      · rw [hs] at hno
        have hnames : vifQosNames pns qosKey (vif :: rest) =
            s :: vifQosNames pns qosKey rest := by
          simp [vifQosNames, List.filterMap_cons, hpd, hno]
        cases hls : reg.lookup s with
        | none =>
            refine ⟨s, ?_, hls, ?_⟩
            · rw [hnames]; exact List.mem_cons_self _ _
            · intro sid
              simp only [processVifs, Bind.bind, Except.bind, htag, hpd,
                hno, pure, Except.pure, registryLookup, hls]
        | some p =>
            rw [hnames] at hex
            have hex2 : ∃ n ∈ vifQosNames pns qosKey rest,
                reg.lookup n = none := by
              rcases hex with ⟨n, hn, hlook⟩
              rcases List.mem_cons.mp hn with rfl | hn2
              · rw [hls] at hlook; exact Option.noConfusion hlook
              · exact ⟨n, hn2, hlook⟩
            obtain ⟨n, hn, hlook, herr⟩ :=
              ih (fun x hx => hWF x (List.mem_cons_of_mem vif hx)) hex2
            refine ⟨n, ?_, hlook, ?_⟩
            · rw [hnames]; exact List.mem_cons_of_mem _ hn
            · intro sid
              simp only [processVifs, Bind.bind, Except.bind, htag, hpd,
                hno, pure, Except.pure, registryLookup, hls]
              rw [herr (sid + 1)]

/-! The claim theorems. -/

/-- C6: an interface (trunk case, first conjunct) or one of its VLANs
(vif case, second conjunct) that names a QoS policy absent from the
policy registry makes `Interface.__init__` raise a KeyError carrying
the missing name; no Interface object is produced.  In the vif case
the trunk's own qos leaf may be absent or may name a policy that does
resolve — either way the VLAN's dangling reference aborts the
construction. -/
theorem C6_missing_policy_fatal :
    (∀ (ifType : String) (ifDict : Value) (reg : List (String × Policy))
       (imReg : List (String × IngressMap)) (nm : Option Value) (pd : Value)
       (pp : Option Value) (ns n : String),
       Value.pyGet (some ifDict) (nameKeyOf ifType) = .ok nm →
       trunkPolicyResolve ifDict (policyNamespaceOf ifType) =
         .ok (some pd, pp) →
       POLICY_KEY ifType = some ns →
       Value.pyGet (some pd) (ns ++ ":qos") = .ok (some (.str n)) →
       reg.lookup n = none →
       Interface.constructBody ifType ifDict reg imReg =
         .error (.keyError n)) ∧
    (∀ (ifType : String) (ifDict : Value) (reg : List (String × Policy))
       (imReg : List (String × IngressMap)) (nm : Option Value) (pd : Value)
       (pp : Option Value) (tb : List (Value × String)) (vifs : List Value)
       (ns : String),
       Value.pyGet (some ifDict) (nameKeyOf ifType) = .ok nm →
       trunkPolicyResolve ifDict (policyNamespaceOf ifType) =
         .ok (some pd, pp) →
       POLICY_KEY ifType = some ns →
       (Value.pyGet (some pd) (ns ++ ":qos") = .ok none ∨
         ∃ s p, Value.pyGet (some pd) (ns ++ ":qos") = .ok (some (.str s)) ∧
           reg.lookup s = some p) →
       trunkIngress (some pd) imReg = .ok tb →
       Value.pyGet (some ifDict) (vifNamespaceOf ifType ++ "vif") =
         .ok (some (.list vifs)) →
       (∀ vif ∈ vifs, vifWF (policyNamespaceOf ifType) (ns ++ ":qos") vif) →
       (∃ n ∈ vifQosNames (policyNamespaceOf ifType) (ns ++ ":qos") vifs,
         reg.lookup n = none) →
       ∃ n ∈ vifQosNames (policyNamespaceOf ifType) (ns ++ ":qos") vifs,
         reg.lookup n = none ∧
         Interface.constructBody ifType ifDict reg imReg =
           .error (.keyError n)) := by
  constructor
  · intro ifType ifDict reg imReg nm pd pp ns n h0 h1 h2 h3 h4
    simp only [Interface.constructBody, Interface.constructCore, Bind.bind,
      Except.bind, pure, Except.pure, Except.map, h0, h1, h2, h3,
      registryLookup, h4]
  · intro ifType ifDict reg imReg nm pd pp tb vifs ns h0 h1 h2 htr h5 h6
      hWF hex
    obtain ⟨n, hn, hlook, herr⟩ :=
      processVifs_missing reg (policyNamespaceOf ifType) (ns ++ ":qos")
        vifs hWF hex
    refine ⟨n, hn, hlook, ?_⟩
    rcases htr with h3 | ⟨s, p, h3, hlp⟩
    · simp only [Interface.constructBody, Interface.constructCore, Bind.bind,
        Except.bind, pure, Except.pure, Except.map, h0, h1, h2, h3, h5, h6]
      rw [herr 1]
    · simp only [Interface.constructBody, Interface.constructCore, Bind.bind,
        Except.bind, pure, Except.pure, Except.map, h0, h1, h2, h3,
        registryLookup, hlp, h5, h6]
      rw [herr 1]

/-- C6 (witness): with an empty policy registry, the trunk reference
`P9` of `c6dict` and the VLAN 10 reference `P9` of `c6vifDict` both
abort construction with `KeyError("P9")`; and with `P1` registered,
the interface whose trunk carries the valid policy `P1` while VLAN 10
names `P9` aborts the same way. -/
theorem C6_witness :
    Interface.constructBody "dataplane" c6dict [] [] =
      .error (.keyError "P9") ∧
    Interface.constructBody "dataplane" c6vifDict [] [] =
      .error (.keyError "P9") ∧
    Interface.constructBody "dataplane" c6mixedDict [("P1", polP1)] [] =
      .error (.keyError "P9") := by
  refine ⟨?_, ?_, ?_⟩
  · exact C6_missing_policy_fatal.1 "dataplane" c6dict [] []
      (some (.str "dp0s1")) (.dict [("vyatta-policy-qos-v1:qos", .str "P9")])
      none "vyatta-policy-qos-v1" "P9" rfl rfl rfl rfl rfl
  · obtain ⟨n, hn, hlook, herr⟩ := C6_missing_policy_fatal.2 "dataplane"
      c6vifDict [] [] (some (.str "dp0s3")) (.dict []) none [] [c6vifEntry]
      "vyatta-policy-qos-v1" rfl rfl rfl (Or.inl rfl) rfl rfl
      (fun vif hv => by
        rcases List.mem_cons.mp hv with rfl | habs
        · exact ⟨⟨.num 10, rfl⟩,
            .dict [("vyatta-policy-qos-v1:qos", .str "P9")], rfl,
            some (.str "P9"), rfl, Or.inr ⟨"P9", rfl⟩⟩
        · exact absurd habs (List.not_mem_nil vif))
      ⟨"P9", by decide, rfl⟩
    have hn9 : n = "P9" := by
      have : vifQosNames (policyNamespaceOf "dataplane")
          ("vyatta-policy-qos-v1" ++ ":qos") [c6vifEntry] = ["P9"] := by decide
      rw [this] at hn
      exact List.mem_singleton.mp hn
    rw [hn9] at herr
    exact herr
  · obtain ⟨n, hn, hlook, herr⟩ := C6_missing_policy_fatal.2 "dataplane"
      c6mixedDict [("P1", polP1)] [] (some (.str "dp0s4"))
      (.dict [("vyatta-policy-qos-v1:qos", .str "P1")]) none [] [c6vifEntry]
      "vyatta-policy-qos-v1" rfl rfl rfl
      (Or.inr ⟨"P1", polP1, rfl, rfl⟩) rfl rfl
      (fun vif hv => by
        rcases List.mem_cons.mp hv with rfl | habs
        · exact ⟨⟨.num 10, rfl⟩,
            .dict [("vyatta-policy-qos-v1:qos", .str "P9")], rfl,
            some (.str "P9"), rfl, Or.inr ⟨"P9", rfl⟩⟩
        · exact absurd habs (List.not_mem_nil vif))
      ⟨"P9", by decide, rfl⟩
    have hn9 : n = "P9" := by
      have : vifQosNames (policyNamespaceOf "dataplane")
          ("vyatta-policy-qos-v1" ++ ":qos") [c6vifEntry] = ["P9"] := by decide
      rw [this] at hn
      exact List.mem_singleton.mp hn
    rw [hn9] at herr
    exact herr

/-- C3 (counterexample): a snapshot whose interfaces subtree has one
interface entry but which lacks the policy subtree makes `QosConfig`
return early — construction succeeds (no error is raised) and the
interface map is empty. -/
theorem C3_counterexample :
    qosConfigBuild c3cfg = .ok ⟨[], [], [], [], []⟩ :=
  rfl

/-- C3 (amended): whenever a `QosConfig` build succeeds its interface
map is empty, and whenever interface processing is actually reached on
a subtree with at least one interface entry (under wellformed
namespaced keys), the three-argument `Interface(...)` call of
`_process_interfaces` raises TypeError against the four-parameter
`Interface.__init__`. -/
theorem C3_interfaces_never_stored :
    (∀ (cfg : Value) (st : QosConfigState),
      qosConfigBuild cfg = .ok st → st.interfaces = []) ∧
    (∀ (policies : List (String × Policy)) (entries : List (String × Value)),
      (∀ kv ∈ entries, (pySplit ':' kv.1).get? 1 ≠ none ∧
        ∃ items, kv.2 = Value.list items) →
      (∃ kv ∈ entries, ∃ items, kv.2 = Value.list items ∧ items ≠ []) →
      processInterfaces policies (some (.dict entries)) =
        .error .typeError) := by
  constructor
  · intro cfg st h
    simp only [qosConfigBuild, Bind.bind, Except.bind, pure, Except.pure] at h
    repeat' split at h
    any_goals exact Except.noConfusion h
    · cases h; rfl
    · cases h
      simp only []
      exact processInterfaces_ok (by assumption)
  · intro policies entries hWF hex
    simp only [processInterfaces]
    exact processInterfacesGo_blocked policies entries hWF hex

theorem lookup_append_of_none {α : Type} {l1 : List (String × α)}
    (l2 : List (String × α)) {k : String} (h : l1.lookup k = none) :
    (l1 ++ l2).lookup k = l2.lookup k := by
  induction l1 with
  | nil => rfl
  | cons e rest ih =>
      rw [List.cons_append]
      cases hbeq : k == e.1 with
      | true =>
          exfalso
          obtain ⟨a, b⟩ := e
          simp only [List.lookup, hbeq] at h
          exact Option.noConfusion h
      | false =>
          obtain ⟨a, b⟩ := e
          simp only [List.lookup, hbeq] at h ⊢
          exact ih h

theorem lookup_singleton_of_ne {α : Type} {k s : String} (p : α)
    (h : k ≠ s) : ([(s, p)] : List (String × α)).lookup k = none := by
  have hbeq : (k == s) = false := beq_eq_false_iff_ne.mpr h
  simp only [List.lookup, hbeq]

theorem pyInsert_fresh {α : Type} {acc : List (String × α)} {s : String}
    (p : α) (h : acc.lookup s = none) :
    pyInsert acc s p = acc ++ [(s, p)] := by
  simp only [pyInsert, h, Option.isSome_none, Bool.false_eq_true, if_false]

theorem processGlobalProfiles_spec :
    ∀ (dicts : List Value) (names : List String) (pid : Nat)
      (acc : List (String × Profile)),
      extractProfileNames dicts = .ok names →
      names.Nodup →
      (∀ n ∈ names, acc.lookup n = none) →
      processGlobalProfiles dicts pid acc =
        .ok (acc ++ (names.enumFrom pid).map
          (fun q => (q.2, (⟨q.1, q.2⟩ : Profile)))) := by
  intro dicts
  induction dicts with
  | nil =>
      intro names pid acc hE hN hacc
      simp only [extractProfileNames] at hE
      cases hE
      simp [processGlobalProfiles]
  | cons d rest ih =>
      intro names pid acc hE hN hacc
      simp only [extractProfileNames, Bind.bind, Except.bind] at hE
      cases hid : d.getItem "id" with
      | error e => rw [hid] at hE; exact Except.noConfusion hE
      | ok v =>
          rw [hid] at hE
          cases v with
          | str s =>
              simp only [] at hE
              cases hrest : extractProfileNames rest with
              | error e => rw [hrest] at hE; exact Except.noConfusion hE
              | ok tail =>
                  rw [hrest] at hE
                  simp only [] at hE
                  cases hE
                  have hfrom : Profile.fromDict pid d = .ok ⟨pid, s⟩ := by
                    simp only [Profile.fromDict, Bind.bind, Except.bind, hid]
                  have hsfresh : acc.lookup s = none :=
                    hacc s (List.mem_cons_self s tail)
                  have hNodup := List.nodup_cons.mp hN
                  simp only [processGlobalProfiles, Bind.bind, Except.bind,
                    hfrom]
                  rw [pyInsert_fresh _ hsfresh]
                  have hfresh2 : ∀ n ∈ tail,
                      (acc ++ [(s, (⟨pid, s⟩ : Profile))]).lookup n = none := by
                    intro n hn
                    rw [lookup_append_of_none _ (hacc n
                      (List.mem_cons_of_mem s hn))]
                    exact lookup_singleton_of_ne _
                      (fun heq => hNodup.1 (heq ▸ hn))
                  rw [ih tail (pid + 1) (acc ++ [(s, (⟨pid, s⟩ : Profile))])
                    hrest hNodup.2 hfresh2]
                  simp [List.enumFrom, List.append_assoc]
          | num n => simp only [] at hE; exact Except.noConfusion hE
          | dict es => simp only [] at hE; exact Except.noConfusion hE
          | list is => simp only [] at hE; exact Except.noConfusion hE

/-- C8: `_process_qos` assigns each global profile a numeric id equal
to its zero-based position in declaration order — under distinct
declared names, the resulting registry maps the i-th declared name to
the profile with id i. -/
theorem C8_profile_ids_positional :
    ∀ (dicts : List Value) (names : List String),
      extractProfileNames dicts = .ok names →
      names.Nodup →
      processGlobalProfiles dicts 0 [] =
        .ok (names.enum.map (fun q => (q.2, (⟨q.1, q.2⟩ : Profile)))) := by
  intro dicts names hE hN
  have h := processGlobalProfiles_spec dicts names 0 [] hE hN
    (fun n _ => rfl)
  simpa [List.enum] using h

/-- C8 (witness): two declared profiles `alpha`, `beta` get ids 0 and
1. -/
theorem C8_witness :
    processGlobalProfiles
      [Value.dict [("id", .str "alpha")], Value.dict [("id", .str "beta")]]
      0 [] =
      .ok [("alpha", ⟨0, "alpha"⟩), ("beta", ⟨1, "beta"⟩)] := by
  have h := C8_profile_ids_positional
    [Value.dict [("id", .str "alpha")], Value.dict [("id", .str "beta")]]
    ["alpha", "beta"] rfl (by decide)
  exact h.trans rfl

/-- C3 (witness): one dataplane interface entry under a wellformed key
makes interface processing fail with TypeError. -/
theorem C3_witness :
    processInterfaces []
      (some (.dict [("vyatta-interfaces-dataplane-v1:dataplane",
        .list [.dict [("tagnode", .str "dp0s1")]])])) =
      .error .typeError := by
  refine C3_interfaces_never_stored.2 [] _ ?_ ?_
  · intro kv hkv
    rcases List.mem_cons.mp hkv with heq | habs
    · subst heq
      exact ⟨by decide, [.dict [("tagnode", .str "dp0s1")]], rfl⟩
    · exact absurd habs (List.not_mem_nil kv)
  · exact ⟨_, List.mem_cons_self _ _,
      [.dict [("tagnode", .str "dp0s1")]], rfl, by simp⟩

/-- C1 (counterexample): the claim fails as stated — the interface of
the VLAN-only scenario has nonzero `max_pipes` (namely 1) yet
`Interface.commands` raises UnboundLocalError on the unassigned trunk
`overhead` instead of returning a command sequence. -/
theorem C1_counterexample :
    (Interface.construct c7args).map
      (fun st => (Interface.maxPipes st, Interface.commands st none)) =
      .ok (1, .error (.unboundLocal "overhead")) ∧ (1 : Nat) ≠ 0 :=
  ⟨rfl, by decide⟩

/-- C1 (amended): for every interface whose computed `max_pipes` is
nonzero and whose subport loop assigned the trunk overhead (some
subport with id 0 carries a policy), `commands()` returns the port
header first — carrying ifindex prefix, subport count, `max_pipes`,
profile count and the trunk policy's overhead — the enable command
last, and exactly the subport commands strictly between them. -/
theorem C1_header_first_enable_last :
    ∀ (ifc : Interface) (sysfs : Option String) (ov : Nat),
      Interface.maxPipes ifc ≠ 0 →
      (maxPipesOverhead ifc.subports).2 = some ov →
      Interface.commands ifc sysfs =
        (let v := renderOptStr (ifc.ifindexResolve sysfs).1
         let pfx := s!"qos {v}"
         .ok (portHeaderCmd pfx ifc.subports.length (Interface.maxPipes ifc)
                ifc.profileIndex.length ov
              :: ifc.subportCmds pfx ++ [s!"{pfx} enable"])) := by
  intro ifc sysfs ov hm hov
  simp only [Interface.maxPipes] at hm ⊢
  simp only [Interface.commands, hov, ne_eq, hm, not_false_iff, if_true]

/-- C1 (witness): the trunk scenario interface — policy `P1` with two
classes and overhead 24, sysfs ifindex 7 — gets the header first, its
two pipe commands in the middle and the enable command last. -/
theorem C1_witness :
    Interface.commands s1ifc (some "7\n") =
      .ok ["qos 7 port subports 1 pipes 2 profiles 1 overhead 24",
           "qos 7 pipe 0 0 0", "qos 7 pipe 0 1 0", "qos 7 enable"] := by
  have h := C1_header_first_enable_last s1ifc (some "7\n") 24 (by decide) rfl
  rw [h]
  rfl

/-- C2: `Interface.commands` returns the empty list exactly when the
`max_pipes` fold over all subports yields 0; in that disabled state no
command of any kind is emitted. -/
theorem C2_empty_iff_no_pipes :
    ∀ (ifc : Interface) (sysfs : Option String),
      Interface.commands ifc sysfs = .ok [] ↔ Interface.maxPipes ifc = 0 := by
  intro ifc sysfs
  by_cases hm : (maxPipesOverhead ifc.subports).1 = 0
  · have hall := (foldl_mpStep_zero ifc.subports (0, none) hm).2
    have hsub : ∀ pfx, ifc.subportCmds pfx = [] := fun pfx =>
      subportCmds_eq_nil pfx hall
    simp [Interface.commands, Interface.maxPipes, hm, hsub]
  · simp only [Interface.commands, Interface.maxPipes, ne_eq, hm,
      not_false_iff, if_true]
    cases hov : (maxPipesOverhead ifc.subports).2 with
    | none => simp [hm]
    | some ov => simp [hm]

/-- C4 (code evaluation): an interface entry with no policy attachment
under either namespace makes `Interface.__init__` raise AttributeError
(`None.get`), and a declared VLAN without a policy sub-object makes it
raise KeyError — construction does not succeed, contradicting the
claim. -/
theorem C4_code_evaluation :
    Interface.construct c4trunkArgs = .error .attributeError ∧
    Interface.construct c4vifArgs =
      .error (.keyError "vyatta-interfaces-policy-v1:policy") :=
  ⟨rfl, rfl⟩

/-- C5 (code evaluation): an interface that names the ingress map
`missing-map` with an empty ingress-map registry is constructed
successfully with no binding — the KeyError from the registry lookup is
swallowed by the absence handler instead of being fatal. -/
theorem C5_code_evaluation :
    (Interface.construct c5args).map (fun st => st.ingressBindings) =
      .ok [] :=
  rfl

/-- C7 (counterexample): in the VLAN-only scenario the subport list has
ids `[1]`, not `[0, 1]` — subport 0 is only created when the trunk has
a policy (interface.py lines 75-77). -/
theorem C7_counterexample :
    (Interface.construct c7args).map (fun st => st.subports.map Subport.id) =
      .ok [1] ∧ ([1] : List Nat) ≠ [0, 1] :=
  ⟨rfl, by decide⟩

/-- C7 (amended): the VLAN-only scenario yields `max_pipes = 1`, one
indexed profile (`local-x` under VLAN scope 10, index 0), a subport
list with the single id 1, and that subport emits exactly one pipe
command referencing the local profile's index 0. -/
theorem C7_scenario :
    (Interface.construct c7args).map
      (fun st => (Interface.maxPipes st, st.profileIndex,
                  st.subports.map Subport.id,
                  st.subports.map
                    (fun sub => Subport.commands sub "qos 5" st.profileIndex))) =
      .ok (1, [("10 local-x", 0)], [1], [["qos 5 pipe 1 0 0"]]) :=
  rfl

/-- C9: the `ifindex` accessor returns the cached value when present;
otherwise it performs the external lookup, returning `none` without
raising on failure; after a successful resolution every later access
returns the same cached value and leaves the state unchanged. -/
theorem C9_ifindex_accessor :
    ∀ (ifc : Interface) (sysfs : Option String),
      (∀ v, ifc.ifindex = some v → ifc.ifindexResolve sysfs = (some v, ifc)) ∧
      (ifc.ifindex = none → sysfs = none →
        ifc.ifindexResolve sysfs = (none, ifc)) ∧
      (∀ raw, ifc.ifindex = none → sysfs = some raw →
        ifc.ifindexResolve sysfs =
          (some (stripNewlines raw),
           { ifc with ifindex := some (stripNewlines raw) })) ∧
      (∀ v, (ifc.ifindexResolve sysfs).1 = some v →
        ∀ g, ((ifc.ifindexResolve sysfs).2).ifindexResolve g =
          (some v, (ifc.ifindexResolve sysfs).2)) := by
  intro ifc sysfs
  refine ⟨?_, ?_, ?_, ?_⟩
  · intro v hv
    simp [Interface.ifindexResolve, hv]
  · intro hv hs
    simp [Interface.ifindexResolve, hv, hs]
  · intro raw hv hs
    simp [Interface.ifindexResolve, hv, hs]
  · intro v hv g
    cases hix : ifc.ifindex with
    | some w =>
        simp only [Interface.ifindexResolve, hix] at hv ⊢
        cases hv
        simp [hix]
    | none =>
        cases hs : sysfs with
        | none =>
            simp only [Interface.ifindexResolve, hix, hs] at hv
            exact Option.noConfusion hv
        | some raw =>
            simp only [Interface.ifindexResolve, hix, hs] at hv ⊢
            cases hv
            rfl

/-- C9 (witness): a cached interface returns its cached ifindex
unchanged; an uncached interface caches the stripped sysfs value and
later accesses return it regardless of the oracle. -/
theorem C9_witness :
    (⟨.dict [], none, [], [], [], [], some "4"⟩ : Interface).ifindexResolve
        none =
      (some "4", ⟨.dict [], none, [], [], [], [], some "4"⟩) ∧
    (((⟨.dict [], none, [], [], [], [], none⟩ : Interface).ifindexResolve
        (some "8\n")).2).ifindexResolve none =
      (some "8",
       ((⟨.dict [], none, [], [], [], [], none⟩ : Interface).ifindexResolve
          (some "8\n")).2) :=
  ⟨(C9_ifindex_accessor _ none).1 "4" rfl,
   (C9_ifindex_accessor (⟨.dict [], none, [], [], [], [], none⟩ : Interface)
      (some "8\n")).2.2.2 "8" rfl none⟩

/-- C10: two constructed Interface objects are `__eq__`-equal exactly
when the raw configuration subtrees they were built from are
structurally equal. -/
theorem C10_eq_iff_same_subtree :
    ∀ (t1 : String) (d1 : Value) (r1 : List (String × Policy))
      (m1 : List (String × IngressMap)) (t2 : String) (d2 : Value)
      (r2 : List (String × Policy)) (m2 : List (String × IngressMap))
      (st1 st2 : Interface),
      Interface.constructBody t1 d1 r1 m1 = .ok st1 →
      Interface.constructBody t2 d2 r2 m2 = .ok st2 →
      (Interface.pyEq st1 st2 ↔ d1 = d2) := by
  intro t1 d1 r1 m1 t2 d2 r2 m2 st1 st2 h1 h2
  unfold Interface.pyEq
  rw [constructBody_if_dict h1, constructBody_if_dict h2]

/-- C10 (witness): an interface built twice from the same subtree
compares equal. -/
theorem C10_witness : Interface.pyEq c10ifc c10ifc := by
  have h : Interface.constructBody "dataplane" c10dict [] [] = .ok c10ifc :=
    rfl
  exact (C10_eq_iff_same_subtree "dataplane" c10dict [] [] "dataplane"
    c10dict [] [] c10ifc c10ifc h h).mpr rfl

end VplaneQos
